import Mathlib

/-!
# Verification of the OculusTinyRoomDXR scene / acceleration-structure lifecycle

Shallow embedding of the parts of `src/Common/Win32_DirectX12AppUtil.h` and
`src/OculusTinyRoomDXR/Main.cpp` that the specification's claims concern:

* `DescHandleProvider` — the free-list-backed bump allocator for descriptor
  handles (`AllocCpuHandle` / `FreeCpuHandle`);
* `VertexBuffer` — the global vertex/index store (`AddVerticeAndIndicesToGlobal`,
  `AddBoxToGlobal`, `AddGlobalObj`) and the bottom-level acceleration-structure
  build loop (`InitGlobalBottomLevelAccelerationObject`);
* `Scene` — the instance-descriptor array and its commit to the GPU-visible
  upload buffer (`UpdateInstanceTransform`, `UpdateInstanceDescs`, `UpdateTLAS`);
* the per-frame command-recording/submission structure of `MainLoop` and the
  retry signal it returns.

Machine integers (`UINT`) are modelled as `Nat`: every quantity involved
(element counts, offsets, byte addresses) stays far below `2^32` in the
program (fixed caps `MAX_INSTANCES = 400`, a handful of meshes), so no
wrap-around arithmetic is ever exercised and `Nat` is faithful.
Float-valued vertex data is modelled over `ℚ`: every float literal in the
source (halves, zeros, ones) is exactly representable, and none of the
verified properties depends on float rounding — only on equality of stored
values, which coincides with `==` on these exact values.
-/

/-! ## DescHandleProvider (Win32_DirectX12AppUtil.h lines 153-200)

A CPU descriptor handle `CD3DX12_CPU_DESCRIPTOR_HANDLE` is a pointer-sized
offset into the descriptor heap; it is modelled as a `Nat`.
`std::vector::push_back` appends at the end, `back`/`pop_back` read and drop
the last element.
-/

structure DescHandleProvider where
  nextAvailableCpuHandle : Nat
  incrementSize : Nat
  currentHandleCount : Nat
  maxHandleCount : Nat
  freeHandles : List Nat
deriving DecidableEq, Repr

namespace DescHandleProvider

/-- Embedding of `AllocCpuHandle` (lines 170-188).  If the free list is non-empty, pop and
return its last element; otherwise `VALIDATE(CurrentHandleCount < MaxHandleCount)`
(a hard `exit(-1)` on failure, modelled as `none`), then hand out the watermark
handle and advance it by `IncrementSize`. -/
def allocCpuHandle (p : DescHandleProvider) : Option (Nat × DescHandleProvider) :=
  match p.freeHandles.getLast? with
  | some h => some (h, { p with freeHandles := p.freeHandles.dropLast })
  | none =>
    if p.currentHandleCount < p.maxHandleCount then
      some (p.nextAvailableCpuHandle,
        { p with
          nextAvailableCpuHandle := p.nextAvailableCpuHandle + p.incrementSize,
          currentHandleCount := p.currentHandleCount + 1 })
    else
      none

/-- Embedding of `FreeCpuHandle` (lines 190-193): unconditionally push the handle onto the
free list. -/
def freeCpuHandle (p : DescHandleProvider) (h : Nat) : DescHandleProvider :=
  { p with freeHandles := p.freeHandles ++ [h] }

theorem allocCpuHandle_freeCpuHandle (p : DescHandleProvider) (h : Nat) :
    allocCpuHandle (freeCpuHandle p h) = some (h, p) := by
  simp [allocCpuHandle, freeCpuHandle]

end DescHandleProvider

open DescHandleProvider in
/-- C3.  Descriptor handle allocator round trip: (1) freeing a handle `h` and
allocating again with no allocation in between returns `h` and restores the
allocator state exactly (LIFO reuse of the last-freed slot); (2) when the free
list is empty the allocator bumps the watermark if it is below the heap's
fixed capacity, and deterministically fails (the `VALIDATE` hard abort,
modelled as `none`) instead of returning a handle once the watermark has
reached capacity. -/
theorem desc_handle_lifo_and_capacity (p : DescHandleProvider) (h : Nat) :
    allocCpuHandle (freeCpuHandle p h) = some (h, p) ∧
    allocCpuHandle { p with freeHandles := [] } =
      (if p.currentHandleCount < p.maxHandleCount then
        some (p.nextAvailableCpuHandle,
          { p with
            freeHandles := [],
            nextAvailableCpuHandle := p.nextAvailableCpuHandle + p.incrementSize,
            currentHandleCount := p.currentHandleCount + 1 })
      else none) := by
  refine ⟨allocCpuHandle_freeCpuHandle p h, ?_⟩
  simp [allocCpuHandle]

open DescHandleProvider in
/-- C9.  `FreeCpuHandle` performs no validation: it appends any handle to the
free list, whether or not it was ever allocated or is already free.  Hence
(1) after freeing the same handle `h` twice, the next two allocations both
return `h` (two live aliases of one descriptor slot), and (2) an allocation
served from the free list never consults the capacity bound: it succeeds even
when the watermark count has already reached (or passed) `maxHandleCount`. -/
theorem free_handle_unchecked (p : DescHandleProvider) (h : Nat) :
    (freeCpuHandle p h).freeHandles = p.freeHandles ++ [h] ∧
    allocCpuHandle (freeCpuHandle (freeCpuHandle p h) h) = some (h, freeCpuHandle p h) ∧
    allocCpuHandle (freeCpuHandle p h) = some (h, p) ∧
    (∀ q : DescHandleProvider, q.maxHandleCount ≤ q.currentHandleCount →
      allocCpuHandle (freeCpuHandle q h) = some (h, q)) := by
  exact ⟨rfl, allocCpuHandle_freeCpuHandle _ h, allocCpuHandle_freeCpuHandle p h,
    fun q _ => allocCpuHandle_freeCpuHandle q h⟩

/-- Witness for `free_handle_unchecked`: a concrete allocator whose watermark
already fills the whole 4-slot heap still serves handle 7 from the free list. -/
theorem free_handle_unchecked_witness :
    DescHandleProvider.allocCpuHandle
        (DescHandleProvider.freeCpuHandle ⟨32, 8, 4, 4, []⟩ 7) = some (7, ⟨32, 8, 4, 4, []⟩) ∧
    (4 : Nat) ≤ 4 := by
  exact ⟨(free_handle_unchecked ⟨32, 8, 4, 4, []⟩ 7).2.2.2 ⟨32, 8, 4, 4, []⟩ (by decide),
    by decide⟩

/-! ## VertexBuffer: the global vertex/index store
(Win32_DirectX12AppUtil.h lines 2009-2557)

`Vertex` (lines 1985-2004) is 8 floats: position (3), normal (3), texture
coordinate (2).  Coordinates are modelled over `ℚ` (all float literals in the
source are exact dyadic rationals; no verified property depends on rounding).
-/

structure Vertex where
  px : ℚ
  py : ℚ
  pz : ℚ
  nx : ℚ
  ny : ℚ
  nz : ℚ
  u : ℚ
  v : ℚ
deriving DecidableEq, Repr

/-- The append-only global store of `VertexBuffer` (lines 2013-2018): the
global vertex and 32-bit-index arrays plus the recorded (offset, count)
sub-range pairs for both, and the mesh counter. -/
structure VertexBuffer where
  globalVertices : List Vertex
  globalIndices : List Nat
  globalStartVBIndices : List (Nat × Nat)
  globalStartIBIndices : List (Nat × Nat)
  numVertexBuffers : Nat
deriving DecidableEq, Repr

namespace VertexBuffer

/-- A freshly constructed `VertexBuffer`: all vectors empty,
`numVertexBuffers = 0` (line 2018). -/
def empty : VertexBuffer := ⟨[], [], [], [], 0⟩

/-- Embedding of `AddVerticeAndIndicesToGlobal` (lines 2184-2210).  Returns the pair the
source returns — `.first` = vertex offset, `.second` = index offset, both read
before appending — together with the updated store.  The recorded sub-ranges
are `(offset, count)` pairs where `count` is the size difference across the
append. -/
def addVerticeAndIndicesToGlobal (vb : VertexBuffer)
    (vertices : List Vertex) (indices : List Nat) : (Nat × Nat) × VertexBuffer :=
  let startIndices : Nat × Nat := (vb.globalVertices.length, vb.globalIndices.length)
  let ibStart := vb.globalIndices.length
  let globalIndices := vb.globalIndices ++ indices
  let vbStart := vb.globalVertices.length
  let globalVertices := vb.globalVertices ++ vertices
  let ibRange : Nat × Nat := (ibStart, globalIndices.length - ibStart)
  let vbRange : Nat × Nat := (vbStart, globalVertices.length - vbStart)
  (startIndices,
    { globalVertices := globalVertices,
      globalIndices := globalIndices,
      globalStartVBIndices := vb.globalStartVBIndices ++ [vbRange],
      globalStartIBIndices := vb.globalStartIBIndices ++ [ibRange],
      numVertexBuffers := vb.numVertexBuffers + 1 })

/-- The 36 box indices of `AddBoxToGlobal` (lines 2096-2115). -/
def boxIndices : List Nat :=
  [0, 2, 1, 0, 3, 2,
   4, 5, 6, 4, 6, 7,
   8, 9, 10, 8, 10, 11,
   12, 14, 13, 12, 15, 14,
   16, 18, 17, 16, 19, 18,
   20, 21, 22, 20, 22, 23]

/-- The 24 box vertices of `AddBoxToGlobal` (lines 2118-2155): six faces of
the unit cube centred at the origin, four vertices each. -/
def boxVertices : List Vertex :=
  [ -- Back face
   ⟨-1/2, -1/2, -1/2, 0, 0, -1, 0, 0⟩, ⟨1/2, -1/2, -1/2, 0, 0, -1, 1, 0⟩,
   ⟨1/2, 1/2, -1/2, 0, 0, -1, 1, 1⟩, ⟨-1/2, 1/2, -1/2, 0, 0, -1, 0, 1⟩,
   -- Front face
   ⟨-1/2, -1/2, 1/2, 0, 0, 1, 0, 0⟩, ⟨1/2, -1/2, 1/2, 0, 0, 1, 1, 0⟩,
   ⟨1/2, 1/2, 1/2, 0, 0, 1, 1, 1⟩, ⟨-1/2, 1/2, 1/2, 0, 0, 1, 0, 1⟩,
   -- Right face
   ⟨1/2, -1/2, -1/2, 1, 0, 0, 0, 0⟩, ⟨1/2, 1/2, -1/2, 1, 0, 0, 0, 1⟩,
   ⟨1/2, 1/2, 1/2, 1, 0, 0, 1, 1⟩, ⟨1/2, -1/2, 1/2, 1, 0, 0, 1, 0⟩,
   -- Left face
   ⟨-1/2, -1/2, -1/2, -1, 0, 0, 0, 0⟩, ⟨-1/2, 1/2, -1/2, -1, 0, 0, 0, 1⟩,
   ⟨-1/2, 1/2, 1/2, -1, 0, 0, 1, 1⟩, ⟨-1/2, -1/2, 1/2, -1, 0, 0, 1, 0⟩,
   -- Top face
   ⟨-1/2, 1/2, -1/2, 0, 1, 0, 0, 0⟩, ⟨1/2, 1/2, -1/2, 0, 1, 0, 1, 0⟩,
   ⟨1/2, 1/2, 1/2, 0, 1, 0, 1, 1⟩, ⟨-1/2, 1/2, 1/2, 0, 1, 0, 0, 1⟩,
   -- Bottom face
   ⟨-1/2, -1/2, -1/2, 0, -1, 0, 0, 0⟩, ⟨1/2, -1/2, -1/2, 0, -1, 0, 1, 0⟩,
   ⟨1/2, -1/2, 1/2, 0, -1, 0, 1, 1⟩, ⟨-1/2, -1/2, 1/2, 0, -1, 0, 0, 1⟩]

/-- Embedding of `AddBoxToGlobal` (lines 2094-2182): textually the same append block as
`AddVerticeAndIndicesToGlobal`, specialised to the literal box arrays. -/
def addBoxToGlobal (vb : VertexBuffer) : (Nat × Nat) × VertexBuffer :=
  addVerticeAndIndicesToGlobal vb boxVertices boxIndices

/-- Fold a sequence of `AddVerticeAndIndicesToGlobal` calls (each given by its
`(vertices, indices)` argument pair) over a store, discarding the returned
offset pairs. -/
def applyAppends (vb : VertexBuffer) : List (List Vertex × List Nat) → VertexBuffer
  | [] => vb
  | m :: ms => applyAppends (addVerticeAndIndicesToGlobal vb m.1 m.2).2 ms

end VertexBuffer

/-- Predicate `contiguousFrom n rs`: the `(offset, count)` ranges `rs` are contiguous
starting at offset `n` — each range begins where the previous one ends. -/
def contiguousFrom : Nat → List (Nat × Nat) → Prop
  | _, [] => True
  | n, r :: rs => r.1 = n ∧ contiguousFrom (n + r.2) rs

instance : ∀ n rs, Decidable (contiguousFrom n rs) := fun n rs => by
  induction rs generalizing n with
  | nil => exact isTrue trivial
  | cons r rs ih => exact @instDecidableAnd _ _ _ (ih (n + r.2))

theorem contiguousFrom_snoc {n : Nat} {rs : List (Nat × Nat)} (h : contiguousFrom n rs) (c : Nat) :
    contiguousFrom n (rs ++ [(n + (rs.map Prod.snd).sum, c)]) := by
  induction rs generalizing n with
  | nil => simpa using ⟨rfl, trivial⟩
  | cons r rs ih =>
    obtain ⟨h1, h2⟩ := h
    refine ⟨h1, ?_⟩
    have := ih h2
    simpa [Nat.add_assoc] using this

theorem contiguousFrom_le {n : Nat} {rs : List (Nat × Nat)} (h : contiguousFrom n rs) :
    ∀ r ∈ rs, n ≤ r.1 := by
  induction rs generalizing n with
  | nil => intro r hr; cases hr
  | cons r rs ih =>
    intro s hs
    obtain ⟨h1, h2⟩ := h
    rcases List.mem_cons.mp hs with hs | hs
    · subst hs
      omega
    · have := ih h2 s hs
      omega

/-- Contiguity implies the ranges are pairwise disjoint in listed order: each
range ends no later than the next one begins. -/
theorem contiguousFrom_pairwise {n : Nat} {rs : List (Nat × Nat)} (h : contiguousFrom n rs) :
    rs.Pairwise (fun r s => r.1 + r.2 ≤ s.1) := by
  induction rs generalizing n with
  | nil => exact List.Pairwise.nil
  | cons r rs ih =>
    obtain ⟨h1, h2⟩ := h
    refine List.Pairwise.cons ?_ (ih h2)
    intro s hs
    have := contiguousFrom_le h2 s hs
    omega

namespace VertexBuffer

/-- The store invariant maintained by every append: both recorded range lists
are contiguous from offset 0 and their counts sum to the corresponding global
array's total length. -/
def storeInv (vb : VertexBuffer) : Prop :=
  contiguousFrom 0 vb.globalStartVBIndices ∧
  contiguousFrom 0 vb.globalStartIBIndices ∧
  (vb.globalStartVBIndices.map Prod.snd).sum = vb.globalVertices.length ∧
  (vb.globalStartIBIndices.map Prod.snd).sum = vb.globalIndices.length

theorem storeInv_empty : storeInv empty := by
  refine ⟨trivial, trivial, rfl, rfl⟩

theorem storeInv_add {vb : VertexBuffer} (h : storeInv vb)
    (vs : List Vertex) (is : List Nat) :
    storeInv (addVerticeAndIndicesToGlobal vb vs is).2 := by
  obtain ⟨hvb, hib, hsv, hsi⟩ := h
  refine ⟨?_, ?_, ?_, ?_⟩
  · have := contiguousFrom_snoc hvb vs.length
    simpa [addVerticeAndIndicesToGlobal, hsv, Nat.add_sub_cancel_left] using this
  · have := contiguousFrom_snoc hib is.length
    simpa [addVerticeAndIndicesToGlobal, hsi, Nat.add_sub_cancel_left] using this
  · simp [addVerticeAndIndicesToGlobal, hsv, Nat.add_sub_cancel_left]
  · simp [addVerticeAndIndicesToGlobal, hsi, Nat.add_sub_cancel_left]

theorem storeInv_applyAppends (vb : VertexBuffer) (h : storeInv vb)
    (ms : List (List Vertex × List Nat)) : storeInv (applyAppends vb ms) := by
  induction ms generalizing vb with
  | nil => exact h
  | cons m ms ih => exact ih _ (storeInv_add h m.1 m.2)


/-- Later appends only extend the store: every list of the earlier store is an
initial segment of the corresponding list of the later store, so previously
returned offsets and recorded ranges keep designating the same data. -/
theorem applyAppends_extends (vb : VertexBuffer) (ms : List (List Vertex × List Nat)) :
    (∃ w, (applyAppends vb ms).globalVertices = vb.globalVertices ++ w) ∧
    (∃ w, (applyAppends vb ms).globalIndices = vb.globalIndices ++ w) ∧
    (∃ w, (applyAppends vb ms).globalStartVBIndices = vb.globalStartVBIndices ++ w) ∧
    (∃ w, (applyAppends vb ms).globalStartIBIndices = vb.globalStartIBIndices ++ w) := by
  induction ms generalizing vb with
  | nil =>
    exact ⟨⟨[], by simp [applyAppends]⟩, ⟨[], by simp [applyAppends]⟩,
      ⟨[], by simp [applyAppends]⟩, ⟨[], by simp [applyAppends]⟩⟩
  | cons m ms ih =>
    obtain ⟨⟨w1, e1⟩, ⟨w2, e2⟩, ⟨w3, e3⟩, ⟨w4, e4⟩⟩ :=
      ih (addVerticeAndIndicesToGlobal vb m.1 m.2).2
    refine ⟨⟨m.1 ++ w1, ?_⟩, ⟨m.2 ++ w2, ?_⟩, ?_, ?_⟩
    · show (applyAppends (addVerticeAndIndicesToGlobal vb m.1 m.2).2 ms).globalVertices = _
      rw [e1]; simp [addVerticeAndIndicesToGlobal]
    · show (applyAppends (addVerticeAndIndicesToGlobal vb m.1 m.2).2 ms).globalIndices = _
      rw [e2]; simp [addVerticeAndIndicesToGlobal]
    · refine ⟨(vb.globalVertices.length, m.1.length) :: w3, ?_⟩
      show (applyAppends (addVerticeAndIndicesToGlobal vb m.1 m.2).2 ms).globalStartVBIndices = _
      rw [e3]; simp [addVerticeAndIndicesToGlobal, Nat.add_sub_cancel_left]
    · refine ⟨(vb.globalIndices.length, m.2.length) :: w4, ?_⟩
      show (applyAppends (addVerticeAndIndicesToGlobal vb m.1 m.2).2 ms).globalStartIBIndices = _
      rw [e4]; simp [addVerticeAndIndicesToGlobal, Nat.add_sub_cancel_left]

end VertexBuffer

open VertexBuffer in
/-- C2.  For every sequence of mesh-append calls on an initially empty global
store: the recorded vertex and index sub-ranges are contiguous (the first at
offset 0, each subsequent one beginning where the previous ends), hence
pairwise disjoint; the recorded counts sum to the total size of the
corresponding global array; and later appends never invalidate earlier
results — the arrays and range lists of any intermediate store remain initial
segments of the final ones. -/
theorem append_mesh_subranges (ms ms' : List (List Vertex × List Nat)) :
    contiguousFrom 0 (applyAppends empty ms).globalStartVBIndices ∧
    contiguousFrom 0 (applyAppends empty ms).globalStartIBIndices ∧
    ((applyAppends empty ms).globalStartVBIndices.map Prod.snd).sum =
      (applyAppends empty ms).globalVertices.length ∧
    ((applyAppends empty ms).globalStartIBIndices.map Prod.snd).sum =
      (applyAppends empty ms).globalIndices.length ∧
    (applyAppends empty ms).globalStartVBIndices.Pairwise
      (fun r s => r.1 + r.2 ≤ s.1) ∧
    (applyAppends empty ms).globalStartIBIndices.Pairwise
      (fun r s => r.1 + r.2 ≤ s.1) ∧
    (∃ w, (applyAppends (applyAppends empty ms) ms').globalVertices =
      (applyAppends empty ms).globalVertices ++ w) ∧
    (∃ w, (applyAppends (applyAppends empty ms) ms').globalIndices =
      (applyAppends empty ms).globalIndices ++ w) ∧
    (∃ w, (applyAppends (applyAppends empty ms) ms').globalStartVBIndices =
      (applyAppends empty ms).globalStartVBIndices ++ w) ∧
    (∃ w, (applyAppends (applyAppends empty ms) ms').globalStartIBIndices =
      (applyAppends empty ms).globalStartIBIndices ++ w) := by
  obtain ⟨hvb, hib, hsv, hsi⟩ := storeInv_applyAppends empty storeInv_empty ms
  obtain ⟨e1, e2, e3, e4⟩ := applyAppends_extends (applyAppends empty ms) ms'
  exact ⟨hvb, hib, hsv, hsi, contiguousFrom_pairwise hvb, contiguousFrom_pairwise hib,
    e1, e2, e3, e4⟩

/-! ## AddGlobalObj: OBJ import with vertex deduplication
(Win32_DirectX12AppUtil.h lines 2464-2556)

The tinyobj parser is an external collaborator; what it yields to the loop at
lines 2502-2530 is a stream of per-face-corner `Vertex` values (position /
normal / texcoord lookups).  That stream is the `corners` input below.  The
`std::unordered_map<Vertex, unsigned int>` is modelled as an association
list queried by exact vertex equality (the map's key equality is the
`Vertex::operator==` field-wise comparison). -/

namespace VertexBuffer

/-- Lookup in the modelled `uniqueVertices` map. -/
def mapFind : List (Vertex × Nat) → Vertex → Option Nat
  | [], _ => none
  | e :: es, v => if e.1 = v then some e.2 else mapFind es v

/-- The body of the dedup loop (lines 2522-2528), one corner vertex at a time.
Accumulator: (per-mesh `vertices`, the `uniqueVertices` map, per-mesh
`indices`).  If the vertex is not yet in the map, it is mapped to
`vertices.size()` and appended; in either case the mapped value is pushed
onto `indices`. -/
def objStep (acc : List Vertex × List (Vertex × Nat) × List Nat) (v : Vertex) :
    List Vertex × List (Vertex × Nat) × List Nat :=
  match mapFind acc.2.1 v with
  | none => (acc.1 ++ [v], acc.2.1 ++ [(v, acc.1.length)], acc.2.2 ++ [acc.1.length])
  | some k => (acc.1, acc.2.1, acc.2.2 ++ [k])

/-- The per-mesh vertex vector produced by the dedup loop of `AddGlobalObj`. -/
def objVertices (corners : List Vertex) : List Vertex :=
  (corners.foldl objStep ([], [], [])).1

/-- The per-mesh (mesh-local) index vector produced by the dedup loop. -/
def objIndices (corners : List Vertex) : List Nat :=
  (corners.foldl objStep ([], [], [])).2.2

/-- Embedding of `AddGlobalObj` (lines 2464-2556): run the dedup loop over the parsed
corner stream, then append the result to the global store with the append
block that is textually identical to `AddVerticeAndIndicesToGlobal`
(lines 2532-2555). -/
def addGlobalObj (vb : VertexBuffer) (corners : List Vertex) : (Nat × Nat) × VertexBuffer :=
  addVerticeAndIndicesToGlobal vb (objVertices corners) (objIndices corners)

/-- Invariant of the dedup accumulator: every value stored in the map and
every emitted index is below the current per-mesh vertex count. -/
def objInv (acc : List Vertex × List (Vertex × Nat) × List Nat) : Prop :=
  (∀ e ∈ acc.2.1, e.2 < acc.1.length) ∧ (∀ i ∈ acc.2.2, i < acc.1.length)

theorem mapFind_lt {uniq : List (Vertex × Nat)} {L : Nat}
    (h : ∀ e ∈ uniq, e.2 < L) {v : Vertex} {k : Nat} (hf : mapFind uniq v = some k) :
    k < L := by
  induction uniq with
  | nil => cases hf
  | cons e es ih =>
    by_cases he : e.1 = v
    · have : some e.2 = some k := by simpa [mapFind, he] using hf
      cases this
      exact h e (List.mem_cons_self e es)
    · exact ih (fun e' he' => h e' (List.mem_cons_of_mem _ he')) (by simpa [mapFind, he] using hf)

theorem objInv_step {acc : List Vertex × List (Vertex × Nat) × List Nat}
    (h : objInv acc) (v : Vertex) : objInv (objStep acc v) := by
  obtain ⟨hm, hi⟩ := h
  unfold objStep
  cases hfind : mapFind acc.2.1 v with
  | none =>
    refine ⟨?_, ?_⟩
    · intro e he
      rcases List.mem_append.mp he with he | he
      · have := hm e he
        simp only [List.length_append, List.length_cons]
        omega
      · rcases List.mem_singleton.mp he with rfl
        simp
    · intro i hi'
      rcases List.mem_append.mp hi' with hi' | hi'
      · have := hi i hi'
        simp only [List.length_append, List.length_cons]
        omega
      · rcases List.mem_singleton.mp hi' with rfl
        simp
  | some k =>
    refine ⟨hm, ?_⟩
    intro i hi'
    rcases List.mem_append.mp hi' with hi' | hi'
    · exact hi i hi'
    · rcases List.mem_singleton.mp hi' with rfl
      exact mapFind_lt hm hfind

theorem objInv_foldl (corners : List Vertex)
    (acc : List Vertex × List (Vertex × Nat) × List Nat) (h : objInv acc) :
    objInv (corners.foldl objStep acc) := by
  induction corners generalizing acc with
  | nil => exact h
  | cons c cs ih => exact ih _ (objInv_step h c)

end VertexBuffer

open VertexBuffer in
/-- C10.  Every index value a mesh writes into the global index array is
mesh-local: (1) every literal box index is below the box's 24-vertex count;
(2) every index the OBJ dedup loop emits is below the per-mesh vertex vector's
final size (the map values are bounded by the vertex count at insertion time
and the vertex vector only grows); (3) consequently, adding the mesh's
recorded vertex offset to such an index lands strictly inside the mesh's own
recorded sub-range `[offset, offset + count)` of the global vertex array. -/
theorem mesh_local_indices :
    (∀ i ∈ boxIndices, i < boxVertices.length) ∧
    (∀ corners : List Vertex, ∀ i ∈ objIndices corners, i < (objVertices corners).length) ∧
    (∀ (vb : VertexBuffer) (vs : List Vertex) (is : List Nat),
      (∀ i ∈ is, i < vs.length) →
      ((addVerticeAndIndicesToGlobal vb vs is).2.globalStartVBIndices.getLast? =
          some (vb.globalVertices.length, vs.length) ∧
        ∀ i ∈ is, vb.globalVertices.length + i <
          vb.globalVertices.length + vs.length)) := by
  refine ⟨by decide, ?_, ?_⟩
  · intro corners i hi
    exact (objInv_foldl corners ([], [], []) ⟨by simp, by simp⟩).2 i hi
  · intro vb vs is h
    refine ⟨?_, ?_⟩
    · simp [addVerticeAndIndicesToGlobal, Nat.add_sub_cancel_left]
    · intro i hi
      have := h i hi
      omega

/-- Witness for `mesh_local_indices`: index 0 of the box mesh; the index
emitted by the dedup loop for a one-corner OBJ stream; and the global slot
referenced by index 0 of a one-vertex, one-index mesh appended to the empty
store. -/
theorem mesh_local_indices_witness :
    (0 : Nat) < VertexBuffer.boxVertices.length ∧
    (0 : Nat) < (VertexBuffer.objVertices [⟨0, 0, 0, 0, 0, 0, 0, 0⟩]).length ∧
    VertexBuffer.empty.globalVertices.length + 0 <
      VertexBuffer.empty.globalVertices.length +
        ([⟨0, 0, 0, 0, 0, 0, 0, 0⟩] : List Vertex).length := by
  refine ⟨mesh_local_indices.1 0 (by decide), ?_, ?_⟩
  · exact mesh_local_indices.2.1 [⟨0, 0, 0, 0, 0, 0, 0, 0⟩] 0 (by decide)
  · exact (mesh_local_indices.2.2 VertexBuffer.empty [⟨0, 0, 0, 0, 0, 0, 0, 0⟩] [0]
      (by decide)).2 0 (by decide)

/-! ## InitGlobalBottomLevelAccelerationObject
(Win32_DirectX12AppUtil.h lines 2224-2312)

The loop runs once per recorded sub-range.  Per iteration it fills a
`D3D12_RAYTRACING_GEOMETRY_DESC` from the i-th recorded index/vertex
sub-range, queries the driver's prebuild info (external; modelled as an
oracle `prebuildResultSize`), aborts the process via
`ThrowIfFalse(ResultDataMaxSizeInBytes > 0)` (modelled as `Except.error`),
then records the build, submits the Final-context command list, blocks on
`WaitForGpu`, and releases the scratch buffer.  `sizeof(UINT) = 4` and
`sizeof(Vertex) = 32` (8 floats of 4 bytes, no padding). -/

/-- Byte size of one 32-bit index (`sizeof(UINT)`, line 2241). -/
def uintByteSize : Nat := 4

/-- Byte size of one `Vertex` (`sizeof(Vertex)`, lines 2247-2248): 8 floats. -/
def vertexByteSize : Nat := 32

/-- The fields of `geometryDesc.Triangles` that depend on the sub-range
(lines 2239-2253).  Addresses are GPU virtual addresses modelled as `Nat`. -/
structure GeometryDesc where
  indexBufferStart : Nat
  indexCount : Nat
  vertexBufferStart : Nat
  vertexCount : Nat
  vertexStrideInBytes : Nat
  opaqueFlag : Bool
deriving DecidableEq, Repr

/-- The geometry descriptor built in iteration `i` of the loop, from the
global buffer base addresses and the i-th vertex/index sub-ranges
(lines 2241-2253). -/
def geometryDescFor (vbBase ibBase : Nat) (vbRange ibRange : Nat × Nat) : GeometryDesc :=
  { indexBufferStart := ibBase + uintByteSize * ibRange.1,
    indexCount := ibRange.2,
    vertexBufferStart := vbBase + vertexByteSize * vbRange.1,
    vertexCount := vbRange.2,
    vertexStrideInBytes := vertexByteSize,
    opaqueFlag := true }

/-- Externally visible steps of one loop iteration (lines 2294-2310). -/
inductive BlasEvent where
  | buildBlas (i : Nat)
  | submitFinalList
  | waitForGpu
  | releaseScratch (i : Nat)
deriving DecidableEq, Repr

/-- The loop body of `InitGlobalBottomLevelAccelerationObject`, iterating the
zipped (vertex, index) sub-range lists with loop counter `i`.  In every state
the program reaches, the two range lists have equal length (both are only
ever extended together by the append functions), so the zip loses nothing.
`Except.error` models the `ThrowIfFalse`/`exit(1)` process abort. -/
def blasLoop (prebuildResultSize : GeometryDesc → Nat) (vbBase ibBase : Nat) :
    Nat → List ((Nat × Nat) × (Nat × Nat)) →
      Except Unit (List GeometryDesc × List BlasEvent)
  | _, [] => .ok ([], [])
  | i, p :: rest =>
    let g := geometryDescFor vbBase ibBase p.1 p.2
    if 0 < prebuildResultSize g then
      match blasLoop prebuildResultSize vbBase ibBase (i + 1) rest with
      | .error e => .error e
      | .ok (gs, evs) =>
        .ok (g :: gs,
          [.buildBlas i, .submitFinalList, .waitForGpu, .releaseScratch i] ++ evs)
    else
      .error ()

/-- Embedding of `InitGlobalBottomLevelAccelerationObject` (lines 2224-2312): one BLAS
build per recorded sub-range, returning the geometry descriptors and the
ordered trace of build/submit/wait/release steps, or `error` if the process
aborted. -/
def initGlobalBLAS (prebuildResultSize : GeometryDesc → Nat) (vb : VertexBuffer)
    (vbBase ibBase : Nat) : Except Unit (List GeometryDesc × List BlasEvent) :=
  blasLoop prebuildResultSize vbBase ibBase 0
    (vb.globalStartVBIndices.zip vb.globalStartIBIndices)

theorem blasLoop_ok (prebuildResultSize : GeometryDesc → Nat) (vbBase ibBase : Nat)
    (pairs : List ((Nat × Nat) × (Nat × Nat))) (i : Nat)
    (hpos : ∀ p ∈ pairs, 0 < prebuildResultSize (geometryDescFor vbBase ibBase p.1 p.2)) :
    blasLoop prebuildResultSize vbBase ibBase i pairs =
      .ok (pairs.map (fun p => geometryDescFor vbBase ibBase p.1 p.2),
        (pairs.enumFrom i).flatMap (fun q =>
          [.buildBlas q.1, .submitFinalList, .waitForGpu, .releaseScratch q.1])) := by
  induction pairs generalizing i with
  | nil => rfl
  | cons p rest ih =>
    have hp := hpos p (List.mem_cons_self p rest)
    have hrest := ih (i + 1) (fun q hq => hpos q (List.mem_cons_of_mem _ hq))
    simp only [blasLoop, hrest, hp, if_pos]
    rfl

/-- C7.  When every recorded sub-range's prebuild query reports a positive
required size (the `ThrowIfFalse` guard passes), the bottom-level build
iterates all recorded sub-ranges once and produces exactly one geometry
descriptor per sub-range; the i-th descriptor references exactly the i-th
sub-range — index-buffer address = global index-buffer base + 4 bytes × i-th
index offset with the i-th index count, vertex-buffer address = global
vertex-buffer base + sizeof(Vertex) = 32 bytes × i-th vertex offset with the
i-th vertex count; and the event trace is, per iteration in order: record the
build, submit the command list, wait for GPU completion, and only then
release the scratch buffer. -/
theorem blas_build_per_subrange (prebuildResultSize : GeometryDesc → Nat)
    (vbBase ibBase : Nat) (vb : VertexBuffer)
    (hpos : ∀ p ∈ vb.globalStartVBIndices.zip vb.globalStartIBIndices,
      0 < prebuildResultSize (geometryDescFor vbBase ibBase p.1 p.2)) :
    initGlobalBLAS prebuildResultSize vb vbBase ibBase =
      .ok ((vb.globalStartVBIndices.zip vb.globalStartIBIndices).map
            (fun p => geometryDescFor vbBase ibBase p.1 p.2),
          ((vb.globalStartVBIndices.zip vb.globalStartIBIndices).enumFrom 0).flatMap
            (fun q => [.buildBlas q.1, .submitFinalList, .waitForGpu,
                       .releaseScratch q.1])) ∧
    ∀ (j : Nat) (hj : j < (vb.globalStartVBIndices.zip vb.globalStartIBIndices).length),
      ((vb.globalStartVBIndices.zip vb.globalStartIBIndices).map
        (fun p => geometryDescFor vbBase ibBase p.1 p.2)).get
          ⟨j, by simpa using hj⟩ =
        geometryDescFor vbBase ibBase
          ((vb.globalStartVBIndices.zip vb.globalStartIBIndices).get ⟨j, hj⟩).1
          ((vb.globalStartVBIndices.zip vb.globalStartIBIndices).get ⟨j, hj⟩).2 := by
  refine ⟨blasLoop_ok prebuildResultSize vbBase ibBase _ 0 hpos, ?_⟩
  intro j hj
  simp [List.get_eq_getElem, List.getElem_map]

/-- Witness for `blas_build_per_subrange`: a store with two box meshes
appended and an oracle reporting size 64 for every descriptor. -/
theorem blas_build_per_subrange_witness :
    initGlobalBLAS (fun _ => 64)
        (VertexBuffer.applyAppends VertexBuffer.empty
          [(VertexBuffer.boxVertices, VertexBuffer.boxIndices),
           (VertexBuffer.boxVertices, VertexBuffer.boxIndices)]) 1000 2000 =
      .ok ([geometryDescFor 1000 2000 (0, 24) (0, 36),
            geometryDescFor 1000 2000 (24, 24) (36, 36)],
          [.buildBlas 0, .submitFinalList, .waitForGpu, .releaseScratch 0,
           .buildBlas 1, .submitFinalList, .waitForGpu, .releaseScratch 1]) := by
  have h := blas_build_per_subrange (fun _ => 64) 1000 2000
    (VertexBuffer.applyAppends VertexBuffer.empty
      [(VertexBuffer.boxVertices, VertexBuffer.boxIndices),
       (VertexBuffer.boxVertices, VertexBuffer.boxIndices)])
    (fun p _ => by simp)
  rw [h.1]
  rfl

/-- C6 counterexample.  With zero meshes appended, the bottom-level build
does not abort: the loop body (and with it the zero-size prebuild-info
check) is never reached, and the function returns normally having built
nothing — even under an oracle that reports required size 0 for every
descriptor. -/
theorem blas_empty_store_counterexample :
    initGlobalBLAS (fun _ => 0) VertexBuffer.empty 0 0 = .ok ([], []) ∧
    (Except.ok ([], []) : Except Unit (List GeometryDesc × List BlasEvent)) ≠
      .error () := by
  exact ⟨rfl, fun h => Except.noConfusion h⟩

/-- C6 amended.  With zero recorded sub-ranges the build loop performs zero
iterations and returns silently without issuing any build command and without
reaching the zero-size prebuild-info check; that fatal check guards each
per-sub-range build: the process aborts as soon as some recorded sub-range's
prebuild query reports required size 0. -/
theorem blas_empty_store_silent (prebuildResultSize : GeometryDesc → Nat)
    (vbBase ibBase : Nat) (vb : VertexBuffer)
    (hvb : vb.globalStartVBIndices = []) :
    initGlobalBLAS prebuildResultSize vb vbBase ibBase = .ok ([], []) ∧
    ∀ (w : VertexBuffer) (p : (Nat × Nat) × (Nat × Nat))
      (rest : List ((Nat × Nat) × (Nat × Nat))),
      w.globalStartVBIndices.zip w.globalStartIBIndices = p :: rest →
      prebuildResultSize (geometryDescFor vbBase ibBase p.1 p.2) = 0 →
      initGlobalBLAS prebuildResultSize w vbBase ibBase = .error () := by
  constructor
  · simp [initGlobalBLAS, hvb, blasLoop]
  · intro w p rest hzip hzero
    simp [initGlobalBLAS, hzip, blasLoop, hzero]

/-- Witness for `blas_empty_store_silent`: the empty store builds nothing and
returns normally; a store with one box mesh under an all-zero oracle aborts. -/
theorem blas_empty_store_silent_witness :
    initGlobalBLAS (fun _ => 0) VertexBuffer.empty 0 0 = .ok ([], []) ∧
    initGlobalBLAS (fun _ => 0)
      (VertexBuffer.addBoxToGlobal VertexBuffer.empty).2 0 0 = .error () := by
  refine ⟨(blas_empty_store_silent (fun _ => 0) 0 0 VertexBuffer.empty rfl).1, ?_⟩
  exact (blas_empty_store_silent (fun _ => 0) 0 0 VertexBuffer.empty rfl).2
    (VertexBuffer.addBoxToGlobal VertexBuffer.empty).2 ((0, 24), (0, 36)) [] (by rfl) rfl

/-! ## Scene: instance descriptors, commit, and TLAS rebuild
(Win32_DirectX12AppUtil.h lines 2838-2998)

`D3D12_RAYTRACING_INSTANCE_DESC` carries a 3x4 transform, the instance mask,
instance id, the BLAS GPU address and the hit-group contribution.  The
transform rows are modelled as exact 4-component rows over `ℚ` (the claims
compare stored bytes for equality only). -/

/-- One four-component row of a matrix. -/
structure Row4 where
  c0 : ℚ
  c1 : ℚ
  c2 : ℚ
  c3 : ℚ
deriving DecidableEq, Repr

/-- An `XMMATRIX` (4 rows of 4 floats). -/
structure XMMatrix where
  r0 : Row4
  r1 : Row4
  r2 : Row4
  r3 : Row4
deriving DecidableEq, Repr

/-- Embedding of `XMMatrixTranspose` (used at line 2962). -/
def XMMatrix.transpose (m : XMMatrix) : XMMatrix :=
  ⟨⟨m.r0.c0, m.r1.c0, m.r2.c0, m.r3.c0⟩,
   ⟨m.r0.c1, m.r1.c1, m.r2.c1, m.r3.c1⟩,
   ⟨m.r0.c2, m.r1.c2, m.r2.c2, m.r3.c2⟩,
   ⟨m.r0.c3, m.r1.c3, m.r2.c3, m.r3.c3⟩⟩

/-- The first three rows of a `D3D12_RAYTRACING_INSTANCE_DESC.Transform`. -/
structure Transform34 where
  t0 : Row4
  t1 : Row4
  t2 : Row4
deriving DecidableEq, Repr

/-- The fields of `D3D12_RAYTRACING_INSTANCE_DESC` as populated at lines 3013-3029. -/
structure InstanceDesc where
  transform : Transform34
  instanceMask : Nat
  instanceID : Nat
  accelerationStructure : Nat
  instanceContributionToHitGroupIndex : Nat
deriving DecidableEq, Repr

/-- Commands the Scene records on the Final-context command list. -/
inductive SceneCmd where
  | buildTopLevelAS (numInstances : Nat)
  | uavBarrier
deriving DecidableEq, Repr

/-- The Scene state relevant to instance-descriptor commits: the CPU-side
`instanceDescsArray`, the CPU-writable GPU upload buffer `instanceDescs`
(its current contents), `numInstances`, and the commands recorded so far on
the Final-context command list. -/
structure SceneInstances where
  instanceDescsArray : List InstanceDesc
  instanceDescsBuffer : List InstanceDesc
  numInstances : Nat
  finalListCmds : List SceneCmd
deriving DecidableEq, Repr

namespace SceneInstances

/-- Overwrite the transform of entry `i` of a descriptor list with the first
three rows of the transposed matrix, leaving all other fields and entries
untouched (an out-of-bounds index writes nothing; in the source it would be
an undefined out-of-bounds store, never exercised by the program). -/
def setTransform : List InstanceDesc → Nat → Transform34 → List InstanceDesc
  | [], _, _ => []
  | d :: ds, 0, t => { d with transform := t } :: ds
  | d :: ds, i + 1, t => d :: setTransform ds i t

/-- Embedding of `Scene::UpdateInstanceTransform` (lines 2960-2967): transpose the matrix
and memcpy its first three rows over entry `instanceIndex`'s `Transform`. -/
def updateInstanceTransform (s : SceneInstances) (instanceIndex : Nat)
    (transformMatrix : XMMatrix) : SceneInstances :=
  let m := transformMatrix.transpose
  { s with instanceDescsArray :=
      setTransform s.instanceDescsArray instanceIndex ⟨m.r0, m.r1, m.r2⟩ }

/-- Embedding of `Scene::UpdateInstanceDescs` (lines 2969-2972) =
`UpdateUploadBuffer(..., numInstances * sizeof(D3D12_RAYTRACING_INSTANCE_DESC), ...)`
(lines 853-859): memcpy the first `numInstances` entries of the CPU array
over the mapped upload buffer; bytes of the buffer beyond the copied size
keep their previous contents. -/
def updateInstanceDescs (s : SceneInstances) : SceneInstances :=
  { s with instanceDescsBuffer :=
      s.instanceDescsArray.take s.numInstances ++
        s.instanceDescsBuffer.drop s.numInstances }

/-- Embedding of `Scene::UpdateTLAS` (lines 2974-2998): record a full top-level rebuild
(referencing the instance-descriptor buffer) and a UAV barrier on the
Final-context command list.  No CPU-visible instance data is modified. -/
def updateTLAS (s : SceneInstances) : SceneInstances :=
  { s with finalListCmds :=
      s.finalListCmds ++ [.buildTopLevelAS s.numInstances, .uavBarrier] }


theorem setTransform_length (ds : List InstanceDesc) (i : Nat) (t : Transform34) :
    (setTransform ds i t).length = ds.length := by
  induction ds generalizing i with
  | nil => rfl
  | cons d ds ih =>
    cases i with
    | zero => rfl
    | succ i =>
      show (d :: setTransform ds i t).length = ds.length + 1
      simp [ih i]

theorem setTransform_get? (ds : List InstanceDesc) (i : Nat) (t : Transform34)
    (j : Nat) (hij : j ≠ i) : (setTransform ds i t).get? j = ds.get? j := by
  induction ds generalizing i j with
  | nil => rfl
  | cons d ds ih =>
    cases i with
    | zero =>
      cases j with
      | zero => exact absurd rfl hij
      | succ j => rfl
    | succ i =>
      cases j with
      | zero => rfl
      | succ j =>
        show (setTransform ds i t).get? j = ds.get? j
        exact ih i j (fun h => hij (by omega))

end SceneInstances

open SceneInstances in
/-- C4.  If the upload buffer is clean (its contents agree with what a commit
of the current array would write — exactly the state after any
`UpdateInstanceDescs`), then overwriting one instance transform
(`UpdateInstanceTransform` on index `i`) and committing leaves every entry of
the buffer other than entry `i` byte-identical to its previous contents. -/
theorem commit_single_update_localized (s : SceneInstances) (i : Nat)
    (m : XMMatrix) (hclean : updateInstanceDescs s = s) (j : Nat) (hij : j ≠ i) :
    (updateInstanceDescs (updateInstanceTransform s i m)).instanceDescsBuffer.get? j =
      s.instanceDescsBuffer.get? j := by
  conv_rhs => rw [← hclean]
  show ((SceneInstances.setTransform s.instanceDescsArray i
        ⟨m.transpose.r0, m.transpose.r1, m.transpose.r2⟩).take s.numInstances ++
      s.instanceDescsBuffer.drop s.numInstances).get? j =
    (s.instanceDescsArray.take s.numInstances ++
      s.instanceDescsBuffer.drop s.numInstances).get? j
  set A := s.instanceDescsArray with hA
  set t : Transform34 := ⟨m.transpose.r0, m.transpose.r1, m.transpose.r2⟩ with ht
  have hlen : ((SceneInstances.setTransform A i t).take s.numInstances).length =
      (A.take s.numInstances).length := by
    simp [SceneInstances.setTransform_length]
  have htake : ((SceneInstances.setTransform A i t).take s.numInstances).get? j =
      (A.take s.numInstances).get? j := by
    rcases Nat.lt_or_ge j s.numInstances with hj | hj
    · rw [List.get?_take hj, List.get?_take hj]
      exact SceneInstances.setTransform_get? A i t j hij
    · rw [List.get?_eq_none.mpr, List.get?_eq_none.mpr]
      · exact le_trans (by simpa using Nat.min_le_left s.numInstances A.length) hj
      · exact le_trans (by simpa [SceneInstances.setTransform_length]
          using Nat.min_le_left s.numInstances A.length) hj
  rcases Nat.lt_or_ge j (A.take s.numInstances).length with hj | hj
  · rw [List.get?_append (by omega), List.get?_append hj]
    exact htake
  · rw [List.get?_append_right (by omega), List.get?_append_right hj, hlen]

/-- Witness for `commit_single_update_localized`: a committed two-instance
scene; updating instance 0's transform and recommitting leaves entry 1
untouched. -/
theorem commit_single_update_localized_witness :
    (SceneInstances.updateInstanceDescs
        (SceneInstances.updateInstanceTransform
          ⟨[⟨⟨⟨1, 0, 0, 0⟩, ⟨0, 1, 0, 0⟩, ⟨0, 0, 1, 0⟩⟩, 255, 0, 1000, 0⟩,
            ⟨⟨⟨1, 0, 0, 0⟩, ⟨0, 1, 0, 0⟩, ⟨0, 0, 1, 0⟩⟩, 255, 1, 2000, 0⟩],
           [⟨⟨⟨1, 0, 0, 0⟩, ⟨0, 1, 0, 0⟩, ⟨0, 0, 1, 0⟩⟩, 255, 0, 1000, 0⟩,
            ⟨⟨⟨1, 0, 0, 0⟩, ⟨0, 1, 0, 0⟩, ⟨0, 0, 1, 0⟩⟩, 255, 1, 2000, 0⟩],
           2, []⟩ 0
          ⟨⟨2, 0, 0, 0⟩, ⟨0, 2, 0, 0⟩, ⟨0, 0, 2, 0⟩, ⟨5, 6, 7, 1⟩⟩)).instanceDescsBuffer.get? 1 =
      (⟨[⟨⟨⟨1, 0, 0, 0⟩, ⟨0, 1, 0, 0⟩, ⟨0, 0, 1, 0⟩⟩, 255, 0, 1000, 0⟩,
          ⟨⟨⟨1, 0, 0, 0⟩, ⟨0, 1, 0, 0⟩, ⟨0, 0, 1, 0⟩⟩, 255, 1, 2000, 0⟩],
         [⟨⟨⟨1, 0, 0, 0⟩, ⟨0, 1, 0, 0⟩, ⟨0, 0, 1, 0⟩⟩, 255, 0, 1000, 0⟩,
          ⟨⟨⟨1, 0, 0, 0⟩, ⟨0, 1, 0, 0⟩, ⟨0, 0, 1, 0⟩⟩, 255, 1, 2000, 0⟩],
         2, []⟩ : SceneInstances).instanceDescsBuffer.get? 1 := by
  exact commit_single_update_localized _ 0
    ⟨⟨2, 0, 0, 0⟩, ⟨0, 2, 0, 0⟩, ⟨0, 0, 2, 0⟩, ⟨5, 6, 7, 1⟩⟩ (by decide) 1 (by decide)

namespace SceneInstances

/-- The per-frame pair `UpdateInstanceDescs(); UpdateTLAS()` as issued by the
frame loop (Main.cpp lines 404-405). -/
def commitAndRebuild (s : SceneInstances) : SceneInstances :=
  updateTLAS (updateInstanceDescs s)

theorem commitAndRebuild_array (s : SceneInstances) :
    (commitAndRebuild s).instanceDescsArray = s.instanceDescsArray := rfl

theorem commitAndRebuild_buffer (s : SceneInstances) :
    (commitAndRebuild s).instanceDescsBuffer =
      s.instanceDescsArray.take s.numInstances ++
        s.instanceDescsBuffer.drop s.numInstances := rfl

theorem commitAndRebuild_numInstances (s : SceneInstances) :
    (commitAndRebuild s).numInstances = s.numInstances := rfl

end SceneInstances

namespace SceneInstances

/-- In every state the program reaches, `instanceDescsArray` is the array
`new D3D12_RAYTRACING_INSTANCE_DESC[numInstances]` (line 3008), so it has at
least (exactly) `numInstances` entries; the commit `memcpy` reads that many. -/
def arraySized (s : SceneInstances) : Prop :=
  s.numInstances ≤ s.instanceDescsArray.length

theorem commitAndRebuild_iterate_array (s : SceneInstances) (j : Nat) :
    (commitAndRebuild^[j] s).instanceDescsArray = s.instanceDescsArray ∧
    (commitAndRebuild^[j] s).numInstances = s.numInstances := by
  induction j with
  | zero => exact ⟨rfl, rfl⟩
  | succ j ih =>
    rw [Function.iterate_succ_apply']
    exact ⟨ih.1, ih.2⟩

theorem commitAndRebuild_stable (t : SceneInstances) (h : arraySized t) :
    (commitAndRebuild (commitAndRebuild t)).instanceDescsBuffer =
      (commitAndRebuild t).instanceDescsBuffer := by
  rw [commitAndRebuild_buffer (commitAndRebuild t), commitAndRebuild_array,
    commitAndRebuild_numInstances, commitAndRebuild_buffer t]
  have hlt : (t.instanceDescsArray.take t.numInstances).length = t.numInstances := by
    rw [List.length_take]
    exact Nat.min_eq_left h
  congr 1
  rw [List.drop_append_eq_append_drop, List.drop_eq_nil_of_le (le_of_eq hlt), hlt,
    Nat.sub_self, List.drop_zero, List.nil_append]

end SceneInstances

open SceneInstances in
/-- C5.  `UpdateInstanceDescs` followed by `UpdateTLAS` is idempotent with
respect to the instance-descriptor buffer while the instance data is
unchanged: the pair never mutates the CPU-side instance array, and every
repetition (any positive number of iterations) writes bit-identical contents
into the upload buffer. -/
theorem commit_rebuild_idempotent (s : SceneInstances) (k : Nat)
    (hs : arraySized s) :
    (commitAndRebuild s).instanceDescsArray = s.instanceDescsArray ∧
    (commitAndRebuild (commitAndRebuild s)).instanceDescsBuffer =
      (commitAndRebuild s).instanceDescsBuffer ∧
    (commitAndRebuild^[k + 1] s).instanceDescsBuffer =
      (commitAndRebuild s).instanceDescsBuffer := by
  refine ⟨rfl, commitAndRebuild_stable s hs, ?_⟩
  induction k with
  | zero => rfl
  | succ k ih =>
    have hpres : arraySized (commitAndRebuild^[k] s) := by
      unfold SceneInstances.arraySized
      rw [(commitAndRebuild_iterate_array s k).1, (commitAndRebuild_iterate_array s k).2]
      exact hs
    calc (commitAndRebuild^[k + 2] s).instanceDescsBuffer
        = (commitAndRebuild (commitAndRebuild (commitAndRebuild^[k] s))).instanceDescsBuffer := by
          rw [Function.iterate_succ_apply', Function.iterate_succ_apply']
      _ = (commitAndRebuild (commitAndRebuild^[k] s)).instanceDescsBuffer :=
          commitAndRebuild_stable _ hpres
      _ = (commitAndRebuild^[k + 1] s).instanceDescsBuffer := by
          rw [Function.iterate_succ_apply']
      _ = (commitAndRebuild s).instanceDescsBuffer := ih

/-- Witness for `commit_rebuild_idempotent`: a one-instance scene, three
iterations. -/
theorem commit_rebuild_idempotent_witness :
    (SceneInstances.commitAndRebuild^[3]
        (⟨[⟨⟨⟨1, 0, 0, 0⟩, ⟨0, 1, 0, 0⟩, ⟨0, 0, 1, 0⟩⟩, 255, 0, 1000, 0⟩],
          [⟨⟨⟨0, 0, 0, 0⟩, ⟨0, 0, 0, 0⟩, ⟨0, 0, 0, 0⟩⟩, 0, 0, 0, 0⟩],
          1, []⟩ : SceneInstances)).instanceDescsBuffer =
      (SceneInstances.commitAndRebuild
        (⟨[⟨⟨⟨1, 0, 0, 0⟩, ⟨0, 1, 0, 0⟩, ⟨0, 0, 1, 0⟩⟩, 255, 0, 1000, 0⟩],
          [⟨⟨⟨0, 0, 0, 0⟩, ⟨0, 0, 0, 0⟩, ⟨0, 0, 0, 0⟩⟩, 0, 0, 0, 0⟩],
          1, []⟩ : SceneInstances)).instanceDescsBuffer := by
  exact (commit_rebuild_idempotent _ 2
    (by unfold SceneInstances.arraySized; decide)).2.2

/-! ## Per-frame command recording and submission (Main.cpp lines 343-538)

One iteration of the frame loop with the session visible and the mirror
drawn.  The three per-frame-slot command lists are indexed by `DrawContext`
(`DrawContext_EyeRenderLeft`, `DrawContext_EyeRenderRight`,
`DrawContext_Final`, Win32_DirectX12AppUtil.h lines 202-209); a single CPU
thread records commands onto them and submits each exactly once per frame:
each eye's list inside the eye loop (line 461), the Final list at the end of
the frame inside `SubmitCommandListAndPresent` (line 537 → line 1653).
GPU execution order on the single command queue is the concatenation, in
submission order, of each submitted list's recorded commands. -/

/-- The `DrawContext` enum. -/
inductive Ctx where
  | eyeRenderLeft
  | eyeRenderRight
  | final
deriving DecidableEq, Repr

/-- GPU commands recorded during one frame (only those the claim concerns are
distinguished; the various resource-state transitions are all
`resourceBarrier`). -/
inductive GpuOp where
  | buildTopLevelAS
  | uavBarrier
  | resourceBarrier
  | dispatchRays (eye : Nat)
  | copyOutputToEyeTexture (eye : Nat)
  | mirrorBlit
  | presentBarrier
deriving DecidableEq, Repr

/-- A CPU-side action of the frame body: record a command on a context's
command list, or close and submit that list to the queue. -/
inductive FrameEvent where
  | record (c : Ctx) (op : GpuOp)
  | submit (c : Ctx)
deriving DecidableEq, Repr

/-- Commands recorded but not yet submitted, per context. -/
structure PendingCmds where
  eyeLeft : List (Ctx × GpuOp)
  eyeRight : List (Ctx × GpuOp)
  finalCtx : List (Ctx × GpuOp)
deriving DecidableEq, Repr

namespace PendingCmds

def get (p : PendingCmds) : Ctx → List (Ctx × GpuOp)
  | .eyeRenderLeft => p.eyeLeft
  | .eyeRenderRight => p.eyeRight
  | .final => p.finalCtx

def add (p : PendingCmds) (c : Ctx) (op : GpuOp) : PendingCmds :=
  match c with
  | .eyeRenderLeft => { p with eyeLeft := p.eyeLeft ++ [(c, op)] }
  | .eyeRenderRight => { p with eyeRight := p.eyeRight ++ [(c, op)] }
  | .final => { p with finalCtx := p.finalCtx ++ [(c, op)] }

def clear (p : PendingCmds) : Ctx → PendingCmds
  | .eyeRenderLeft => { p with eyeLeft := [] }
  | .eyeRenderRight => { p with eyeRight := [] }
  | .final => { p with finalCtx := [] }

end PendingCmds

/-- GPU execution order induced by a CPU event trace: `ExecuteCommandLists`
appends a submitted list's recorded commands to the queue in submission
order. -/
def gpuSchedule : List FrameEvent → PendingCmds → List (Ctx × GpuOp)
  | [], _ => []
  | .record c op :: rest, p => gpuSchedule rest (p.add c op)
  | .submit c :: rest, p => p.get c ++ gpuSchedule rest (p.clear c)

def gpuOrder (tr : List FrameEvent) : List (Ctx × GpuOp) :=
  gpuSchedule tr ⟨[], [], []⟩

/-- The commands a trace records on context `c`, in recording order. -/
def recordedOn (tr : List FrameEvent) (c : Ctx) : List GpuOp :=
  tr.filterMap (fun e =>
    match e with
    | .record c' op => if c' = c then some op else none
    | .submit _ => none)

/-- The eye-loop body for one eye (Main.cpp lines 408-465): transition the
eye color and depth textures, dispatch rays (`DoRaytracing`, recorded on the
active eye context), copy the ray-tracing output into the eye swap-chain
textures, transition back, then submit the eye's command list. -/
def eyeEvents (eye : Nat) (c : Ctx) : List FrameEvent :=
  [.record c .resourceBarrier,
   .record c .resourceBarrier,
   .record c (.dispatchRays eye),
   .record c (.copyOutputToEyeTexture eye),
   .record c .resourceBarrier,
   .record c .resourceBarrier,
   .submit c]

/-- One visible frame of `MainLoop` with the mirror drawn (lines 343-538):
`UpdateInstanceDescs` (a pure memcpy, no command), `UpdateTLAS` (recorded on
the Final context, lines 2991-2996), the two eye passes, the mirror blit
block (lines 495-535, Final context), and `SubmitCommandListAndPresent`
(present barrier + submission of the Final list). -/
def frameTrace : List FrameEvent :=
  [FrameEvent.record .final .buildTopLevelAS,
   FrameEvent.record .final .uavBarrier]
  ++ eyeEvents 0 .eyeRenderLeft
  ++ eyeEvents 1 .eyeRenderRight
  ++ [FrameEvent.record .final .resourceBarrier,
      FrameEvent.record .final .mirrorBlit,
      FrameEvent.record .final .resourceBarrier,
      FrameEvent.record .final .presentBarrier,
      FrameEvent.submit .final]

/-- C1 counterexample.  In the frame body as the program records it, the TLAS
rebuild and the ray dispatches are NOT on the same command list: the rebuild
is recorded only on the Final-context list and the dispatches only on the eye
contexts; and in the GPU execution order of the frame the left-eye dispatch
comes strictly before the frame's TLAS rebuild (the eye lists are submitted
before the Final list), so the rebuild does not precede the dispatch that
runs in the same frame. -/
theorem tlas_before_dispatch_counterexample :
    GpuOp.buildTopLevelAS ∈ recordedOn frameTrace Ctx.final ∧
    GpuOp.dispatchRays 0 ∈ recordedOn frameTrace Ctx.eyeRenderLeft ∧
    GpuOp.buildTopLevelAS ∉ recordedOn frameTrace Ctx.eyeRenderLeft ∧
    GpuOp.buildTopLevelAS ∉ recordedOn frameTrace Ctx.eyeRenderRight ∧
    GpuOp.dispatchRays 0 ∉ recordedOn frameTrace Ctx.final ∧
    GpuOp.dispatchRays 1 ∉ recordedOn frameTrace Ctx.final ∧
    (gpuOrder frameTrace).indexOf (Ctx.eyeRenderLeft, GpuOp.dispatchRays 0) <
      (gpuOrder frameTrace).indexOf (Ctx.final, GpuOp.buildTopLevelAS) := by
  decide

/-- C1 amended.  Within one frame: the TLAS rebuild is recorded (first) on
the Final-context command list while each eye's ray dispatch is recorded on
that eye's own command list; the eye lists are submitted before the Final
list, so on the GPU both dispatches of the frame execute before that frame's
TLAS rebuild — a frame's dispatch consumes the TLAS written by the previous
Final-list submission (the initial build for the first frame).  Across two
consecutive frames the GPU order is the per-frame order repeated, so frame
N+1's dispatches do execute after frame N's TLAS rebuild. -/
theorem tlas_before_dispatch_amended :
    recordedOn frameTrace Ctx.final =
      [.buildTopLevelAS, .uavBarrier, .resourceBarrier, .mirrorBlit,
       .resourceBarrier, .presentBarrier] ∧
    recordedOn frameTrace Ctx.eyeRenderLeft =
      [.resourceBarrier, .resourceBarrier, .dispatchRays 0,
       .copyOutputToEyeTexture 0, .resourceBarrier, .resourceBarrier] ∧
    recordedOn frameTrace Ctx.eyeRenderRight =
      [.resourceBarrier, .resourceBarrier, .dispatchRays 1,
       .copyOutputToEyeTexture 1, .resourceBarrier, .resourceBarrier] ∧
    gpuOrder frameTrace =
      ((recordedOn frameTrace Ctx.eyeRenderLeft).map (fun op => (Ctx.eyeRenderLeft, op)) ++
       (recordedOn frameTrace Ctx.eyeRenderRight).map (fun op => (Ctx.eyeRenderRight, op)) ++
       (recordedOn frameTrace Ctx.final).map (fun op => (Ctx.final, op))) ∧
    gpuOrder (frameTrace ++ frameTrace) = gpuOrder frameTrace ++ gpuOrder frameTrace := by
  decide

/-! ## MainLoop exit paths and the retry signal (Main.cpp lines 233-556)

`MainLoop(retryCreate)` can leave its loop in the following ways that return
to the caller (paths that call `FATALERROR`/`VALIDATE` terminate the process
and return nothing):

* `ovr_Create` fails (line 252): `return retryCreate;` immediately;
* `InitDevice` fails (line 263): `goto Done`;
* eye-texture or mirror-texture creation fails with `retryCreate` set
  (lines 283, 292, 308): `goto Done`;
* the session reports `ShouldQuit` (line 347): `retryCreate = false; break;`
* `ovr_EndFrame` returns any failure (line 489): `goto Done`;
* the window closes / `HandleMessages` returns false: the `while` ends.

All paths through `Done` return `retryCreate || (result == ovrError_DisplayLost)`
(line 555), where `result` holds the last `ovrResult` assigned before the
exit. -/

/-- The status of the last `ovrResult` value at exit time. -/
inductive OvrResult where
  | success
  | displayLost
  | otherError
deriving DecidableEq, Repr

/-- How `MainLoop` reached its return statement. -/
inductive ExitPath where
  | createFail
  | initDeviceFail
  | setupFailRetry
  | shouldQuit
  | endFrameFail
  | windowClosed
deriving DecidableEq, Repr

/-- The boolean retry signal `MainLoop` returns, per exit path:
`ovr_Create` failure returns `retryCreate` directly (line 253); the
`ShouldQuit` path clears `retryCreate` before breaking to `Done`
(lines 347-352); every other path reaches `Done` with `retryCreate`
unchanged, and `Done` returns
`retryCreate || (result == ovrError_DisplayLost)` (line 555). -/
def mainLoopReturn (retryCreate : Bool) (path : ExitPath) (lastResult : OvrResult) : Bool :=
  match path with
  | .createFail => retryCreate
  | .shouldQuit => false || decide (lastResult = .displayLost)
  | _ => retryCreate || decide (lastResult = .displayLost)

/-- Does the claim class this exit as a setup failure? -/
def isSetupFailure : ExitPath → Bool
  | .createFail => true
  | .initDeviceFail => true
  | .setupFailRetry => true
  | _ => false

/-- C8 counterexample.  The enumerated conditions are not the only ways the
loop signals its caller: when `ovr_EndFrame` fails with an error other than
`ovrError_DisplayLost` (while retry is permitted, as the outer `Run` loop
always passes `retryCreate = true`), `MainLoop` returns `true` — a retry
signal produced by an exit that is neither a display-lost session end nor a
setup failure, and not the quit path either. -/
theorem main_loop_retry_counterexample :
    mainLoopReturn true ExitPath.endFrameFail OvrResult.otherError = true ∧
    isSetupFailure ExitPath.endFrameFail = false ∧
    OvrResult.otherError ≠ OvrResult.displayLost ∧
    ExitPath.endFrameFail ≠ ExitPath.shouldQuit := by
  decide

/-- C8 amended.  The retry signal is `retryCreate || (result == displayLost)`
(with `ovr_Create` failure returning `retryCreate` alone and `ShouldQuit`
clearing `retryCreate` first).  Hence: a display-lost result at any exit
other than session creation yields `true`; a setup failure while retry is
permitted yields `true`; `ShouldQuit` without display-lost yields `false`;
but in addition, ANY other exit while retry remains permitted — window close
or an `ovr_EndFrame` failure of any kind — also yields `true`.  The complete
characterization of the `false` signal: it occurs exactly when the
`ovr_Create` failure path runs with retry not permitted, when `ShouldQuit`
fires without display-lost, or when any other exit happens with retry not
permitted and no display-lost result. -/
theorem main_loop_retry_amended (retry : Bool) (path : ExitPath) (res : OvrResult) :
    (res = .displayLost → path ≠ .createFail → mainLoopReturn retry path res = true) ∧
    (isSetupFailure path = true → retry = true → mainLoopReturn retry path res = true) ∧
    (path = .shouldQuit → res ≠ .displayLost → mainLoopReturn retry path res = false) ∧
    (retry = true → path ≠ .shouldQuit → mainLoopReturn retry path res = true) ∧
    (mainLoopReturn retry path res = false ↔
      ((path = .createFail ∧ retry = false) ∨
       (path = .shouldQuit ∧ res ≠ .displayLost) ∨
       (path ≠ .createFail ∧ path ≠ .shouldQuit ∧ retry = false ∧ res ≠ .displayLost))) := by
  constructor
  · intro hres hpath
    cases path <;> simp_all [mainLoopReturn]
  constructor
  · intro hsetup hretry
    cases path <;> simp_all [mainLoopReturn, isSetupFailure]
  constructor
  · intro hpath hres
    subst hpath
    simp [mainLoopReturn, hres]
  constructor
  · intro hretry hpath
    cases path <;> simp_all [mainLoopReturn]
  · cases path <;> cases retry <;> cases res <;> simp [mainLoopReturn]

/-- Witness for `main_loop_retry_amended`: the `ShouldQuit` path with a
successful last result returns `false`, via the third conjunct. -/
theorem main_loop_retry_amended_witness :
    mainLoopReturn true ExitPath.shouldQuit OvrResult.success = false := by
  exact (main_loop_retry_amended true ExitPath.shouldQuit OvrResult.success).2.2.1
    rfl (by decide)
